import Mathlib

/-!
Shallow embedding of the prattle chat server core (`src/command.rs`,
`src/client.rs`, `src/server.rs`) and proofs about it.

Strings are Lean `String`s (a wrapper around `List Char`); Rust's
whitespace trimming is reimplemented below because Rust's
`char::is_whitespace` covers the full Unicode `White_Space` property
while Lean's `Char.isWhitespace` covers only ASCII whitespace.
-/

namespace Prattle

/-- Rust's `char::is_whitespace`: the Unicode `White_Space` property
(U+0009..U+000D, U+0020, U+0085, U+00A0, U+1680, U+2000..U+200A,
U+2028, U+2029, U+202F, U+205F, U+3000). -/
def rustWhitespace (c : Char) : Bool :=
  let n := c.toNat
  (9 ≤ n && n ≤ 13) || n == 32 || n == 0x85 || n == 0xA0 || n == 0x1680 ||
    (0x2000 ≤ n && n ≤ 0x200A) || n == 0x2028 || n == 0x2029 || n == 0x202F ||
    n == 0x205F || n == 0x3000

/-- `str::trim` on a character list: drop Unicode whitespace from both ends. -/
def trimChars (s : List Char) : List Char :=
  ((s.dropWhile rustWhitespace).reverse.dropWhile rustWhitespace).reverse

/-- Rust's `str::trim` lifted to `String`. -/
def rustTrim (s : String) : String :=
  ⟨trimChars s.data⟩

/-- `p.dropPre s` is Rust's `s.strip_prefix(p)`: `some` of the remainder
when `p` is an initial segment of `s`, otherwise `none`. -/
def dropPre : List Char → List Char → Option (List Char)
  | [], s => some s
  | _ :: _, [] => none
  | a :: ps, b :: ss => if a = b then dropPre ps ss else none

/-- `Command` from `src/command.rs` (text payloads own their strings). -/
inductive Command where
  | Empty : Command
  | Quit : Command
  | Help : Command
  | Who : Command
  | Action : String → Command
  | Msg : String → Command
deriving DecidableEq, Repr

/-- The static help text `COMMAND_HELP` from `src/command.rs`. -/
def COMMAND_HELP : String :=
  "\n/quit             Leave the server\n/help             Show this message\n/who              List online users\n/action <action>  Broadcast an action, e.g. /action waves\n\n[anything else]   Send a regular message\n\n"

/-- `Command::parse` from `src/command.rs`: trim, then match the known
commands exactly, the `/action ` form by stripping its literal head, and
fall through to `Msg` of the trimmed text. -/
def Command.parse (input : String) : Command :=
  let trimmed := rustTrim input
  if trimmed = "" then .Empty
  else if trimmed = "/quit" then .Quit
  else if trimmed = "/help" then .Help
  else if trimmed = "/who" then .Who
  else
    match dropPre "/action ".data trimmed.data with
    | some action => .Action ⟨action⟩
    | none => .Msg trimmed

/-- The §4.1 reference mapping, written from the specification's words
(trim; empty → Empty; the three exact commands; a `/action ` head with
one trailing space → Action of the remaining text; everything else →
Msg of the trimmed text). Used only to compare against `Command.parse`. -/
def specCommandMapping (input : String) : Command :=
  let t := rustTrim input
  if t = "" then .Empty
  else if t = "/quit" then .Quit
  else if t = "/help" then .Help
  else if t = "/who" then .Who
  else if "/action ".data.isPrefixOf t.data then .Action ⟨t.data.drop 8⟩
  else .Msg t

deriving instance DecidableEq for Except

/-! ## Timeouts (`src/server.rs`, `src/client.rs`), in milliseconds -/

/-- `GLOBAL_SHUTDOWN_TIMEOUT` from `src/server.rs`: 5 seconds. -/
def GLOBAL_SHUTDOWN_TIMEOUT_MS : Nat := 5000

/-- The drain-loop poll interval from `src/server.rs`: 100 ms. -/
def POLL_INTERVAL_MS : Nat := 100

/-- `CLIENT_DISCONNECT_TIMEOUT` from `src/client.rs`:
`GLOBAL_SHUTDOWN_TIMEOUT.saturating_sub(Duration::from_secs(1))`
(`Nat` subtraction is saturating). -/
def CLIENT_DISCONNECT_TIMEOUT_MS : Nat := GLOBAL_SHUTDOWN_TIMEOUT_MS - 1000

/-- `UNKNOWN_USERNAME` from `src/client.rs`: the logging-only placeholder. -/
def UNKNOWN_USERNAME : String := "[unknown]"

/-! ## Username negotiation (`handle_client`, `src/client.rs` lines 40-83)

The `HashSet<String>` user directory is modelled as a duplicate-free
`List String`; `contains`/`insert`/`remove` are membership test,
prepend-if-absent, and `List.erase`. -/

/-- The critical section of `handle_client` lines 65-74: under one lock
guard, test membership and insert on absence. Returns whether
registration succeeded together with the updated directory. -/
def tryRegister (users : List String) (name : String) : Bool × List String :=
  if users.contains name then (false, users) else (true, name :: users)

/-- `HashSet::remove` at `src/client.rs` line 141. -/
def unregister (users : List String) (name : String) : List String :=
  users.erase name

/-- An event the negotiation loop's `select!` can resolve with: the
shutdown signal, or one line read from the socket. -/
inductive NegEvent where
  | shutdown : NegEvent
  | inputLine : String → NegEvent
deriving DecidableEq, Repr

/-- How the negotiation loop ends: a username was registered, the
shutdown notice was written and the session moves to disconnecting, or
the event list ran out with the loop still waiting. -/
inductive NegOutcome where
  | registered : String → NegOutcome
  | shutdownNotice : NegOutcome
  | pending : NegOutcome
deriving DecidableEq, Repr

/-- The negotiation loop of `handle_client` (`src/client.rs` lines
40-78), driven by a list of select-resolution events. Returns the
outcome, the directory after the loop, and the lines written to the
client socket (the prompt is written when the read branch runs; the
graceful disconnect after a shutdown notice writes nothing). -/
def negotiate (users : List String) : List NegEvent → NegOutcome × List String × List String
  | [] => (.pending, users, [])
  | .shutdown :: _ => (.shutdownNotice, users, ["\nServer is shutting down\n"])
  | .inputLine l :: rest =>
    let name := rustTrim l
    if name = "" then
      let r := negotiate users rest
      (r.1, r.2.1, "Choose a username: " :: "Username cannot be empty\n" :: r.2.2)
    else
      let t := tryRegister users name
      if t.1 then (.registered name, t.2, ["Choose a username: "])
      else
        let r := negotiate t.2 rest
        (r.1, r.2.1, "Choose a username: " :: "Username taken\n" :: r.2.2)

/-! ## The Active loop (`ClientHandler`, `src/client.rs` lines 110-227)

Socket writes are modelled as always succeeding; transport failures
enter the model as explicit `sockErr`/`busErr` events. Broadcast
`Sender::send` fails exactly when the channel has zero subscribers, so
each publish point takes the subscriber count at that moment. -/

/-- Why a session task returns `Err`. -/
inductive SessionErr where
  | sendErr : SessionErr
  | recvErr : SessionErr
  | ioErr : SessionErr
deriving DecidableEq, Repr

/-- An event the Active loop's `select!` can resolve with. -/
inductive ActiveEvent where
  | busMsg : String → ActiveEvent
  | busErr : ActiveEvent
  | sockLine : String → ActiveEvent
  | sockEof : ActiveEvent
  | sockErr : ActiveEvent
  | shutdown : ActiveEvent
deriving DecidableEq, Repr

/-- `ClientHandler::run_command` (`src/client.rs` lines 199-226):
returns the lines written to the requester's socket, the messages
published on the bus, and the result (`tx.send` fails, and the failure
is propagated with `?`, exactly when `subs = 0`). -/
def run_command (username : String) (users : List String) (subs : Nat) :
    Command → List String × List String × Except SessionErr Unit
  | .Empty => ([], [], .ok ())
  | .Quit => (["Goodbye for now!\n"], [], .ok ())
  | .Help => ([COMMAND_HELP], [], .ok ())
  | .Who =>
    (["Currently online: " ++ String.intercalate ", " users ++ "\n"], [], .ok ())
  | .Action a =>
    if subs = 0 then ([], [], .error .sendErr)
    else ([], ["* " ++ username ++ " " ++ a ++ "\n"], .ok ())
  | .Msg m =>
    if subs = 0 then ([], [], .error .sendErr)
    else ([], [username ++ ": " ++ m ++ "\n"], .ok ())

/-- `ClientHandler::command_loop` (`src/client.rs` lines 153-196),
driven by a list of select-resolution events. Returns `some` of the
loop's result on exit (`none` when the events ran out with the loop
still racing), the socket writes, and the bus publishes. -/
def commandLoop (username : String) (users : List String) (subs : Nat) :
    List ActiveEvent → Option (Except SessionErr Unit) × List String × List String
  | [] => (none, [], [])
  | .busMsg m :: rest =>
    let r := commandLoop username users subs rest
    (r.1, m :: r.2.1, r.2.2)
  | .busErr :: _ => (some (.error .recvErr), [], [])
  | .sockEof :: _ => (some (.ok ()), [], [])
  | .sockErr :: _ => (some (.error .ioErr), [], [])
  | .shutdown :: _ => (some (.ok ()), ["Server is shutting down\n"], [])
  | .sockLine l :: rest =>
    let c := Command.parse l
    let e := run_command username users subs c
    if c = Command.Quit then (some e.2.2, e.1, e.2.1)
    else
      match e.2.2 with
      | .error err => (some (.error err), e.1, e.2.1)
      | .ok () =>
        let r := commandLoop username users subs rest
        (r.1, e.1 ++ r.2.1, e.2.1 ++ r.2.2)

/-- `ClientHandler::run` (`src/client.rs` lines 125-151): write the
welcome line (`write_all(..)?`, so a transport error here returns
before any cleanup — `welcomeOk` is that write's outcome), publish the
join announcement (failure propagates with `?`), run the command loop,
then — whatever the loop result — remove the username from the
directory and publish the departure announcement best-effort (a
failure is only logged). `subs` is the subscriber count during the
join publish and the loop, `subsExit` the count at the departure
publish. Returns the session result, the directory after the task
returns, the socket writes, and the bus publishes. -/
def clientRun (username : String) (users : List String) (welcomeOk : Bool)
    (subs subsExit : Nat) (events : List ActiveEvent) :
    Option (Except SessionErr Unit) × List String × List String × List String :=
  let welcome := "Hi " ++ username ++ ", welcome to Prattle! (Send /help for help)\n"
  if welcomeOk then
    if subs = 0 then
      -- the join `tx.send(..)?` fails and returns early: no removal, no departure
      (some (.error .sendErr), users, [welcome], [])
    else
      let joinMsg := "* " ++ username ++ " joined the server\n"
      let r := commandLoop username users subs events
      match r.1 with
      | none => (none, users, welcome :: r.2.1, joinMsg :: r.2.2)
      | some res =>
        let leftMsg := "* " ++ username ++ " left the server\n"
        (some res, unregister users username, welcome :: r.2.1,
          joinMsg :: r.2.2 ++ (if subsExit = 0 then [] else [leftMsg]))
  else
    -- the welcome `write_all(..)?` fails and returns early: the username
    -- is never removed and no departure announcement is attempted
    (some (.error .ioErr), users, [], [])

/-! ## Dispatcher (`run`, `src/server.rs` lines 38-133) -/

/-- An event the accept loop's `select!` can resolve with. -/
inductive DispatchEvent where
  | conn : DispatchEvent
  | shutdownFired : DispatchEvent
deriving DecidableEq, Repr

/-- An observable action of the accept loop. -/
inductive DispatchAct where
  | acceptConn : DispatchAct
  | broadcastShutdown : DispatchAct
deriving DecidableEq, Repr

/-- The accept loop (`src/server.rs` lines 56-110): each connection
event is accepted and a session spawned; the first shutdown event
broadcasts the shutdown signal and breaks the loop, so later events are
never looked at. Returns the actions performed and whether the loop
exited via the shutdown branch. -/
def acceptLoop : List DispatchEvent → List DispatchAct × Bool
  | [] => ([], false)
  | .conn :: rest =>
    let r := acceptLoop rest
    (.acceptConn :: r.1, r.2)
  | .shutdownFired :: _ => ([.broadcastShutdown], true)

/-- The drain loop (`src/server.rs` lines 115-128) from poll index `k`
(the k-th poll happens after k sleeps, i.e. at elapsed time
`POLL_INTERVAL_MS * k`): if the population is zero the loop exits
normally; otherwise, if the elapsed time has reached
`GLOBAL_SHUTDOWN_TIMEOUT_MS`, it warns and breaks; otherwise it sleeps
one interval and re-polls. Returns (timed out?, exit poll index).
`popZero k` is the value of `users.is_empty() && active_clients == 0`
at poll `k`. -/
def drainGo (popZero : Nat → Bool) : Nat → Nat → Bool × Nat
  | 0, k => (true, k)
  | fuel + 1, k =>
    if popZero k then (false, k)
    else if GLOBAL_SHUTDOWN_TIMEOUT_MS ≤ POLL_INTERVAL_MS * k then (true, k)
    else drainGo popZero fuel (k + 1)

/-- The drain loop from poll index `k`. The loop terminates because the
timeout check fires once `POLL_INTERVAL_MS * k` reaches
`GLOBAL_SHUTDOWN_TIMEOUT_MS`; the fuel is that bound plus one, so the
fuel-exhaustion branch of `drainGo` is never reached (see
`drainFrom_unfold`, which recovers the loop's recurrence). -/
def drainFrom (popZero : Nat → Bool) (k : Nat) : Bool × Nat :=
  drainGo popZero (GLOBAL_SHUTDOWN_TIMEOUT_MS / POLL_INTERVAL_MS + 1 - k) k

/-- The tail of `run` after the shutdown trigger (`src/server.rs` lines
93-132): the drain loop runs exactly when the shutdown broadcast found
at least one subscriber (`receivers ≠ 0`; both `Err` arms only log and
skip the drain), and `run` returns `Ok(())` in every case. Returns the
drain result, if the drain ran, and `run`'s result. -/
def afterShutdown (receivers : Nat) (popZero : Nat → Bool) :
    Option (Bool × Nat) × Except SessionErr Unit :=
  if receivers = 0 then (none, .ok ())
  else (some (drainFrom popZero 0), .ok ())

/-! ## Broadcast Bus -/

/-- Modelled from the spec: the Broadcast Bus is a tokio broadcast
channel — external library code, not part of this repository's sources
— whose log of published messages grows at the end, per §4.3: "Fan-out
is at-least-once per subscriber present at publish time; a subscriber
created after a publish never sees that publish". -/
structure BroadcastBus where
  log : List String
deriving DecidableEq, Repr

/-- Modelled from the spec: publishing appends to the global publish
order (§4.3: one bus, a single well-defined total order). -/
def BroadcastBus.publish (b : BroadcastBus) (m : String) : BroadcastBus :=
  ⟨b.log ++ [m]⟩

/-- Publish a whole list of messages in order. -/
def BroadcastBus.publishAll (b : BroadcastBus) (ms : List String) : BroadcastBus :=
  ⟨b.log ++ ms⟩

/-- Modelled from the spec: `tx.subscribe()` (`src/server.rs` line 64)
creates a receiver positioned at the current end of the publish order;
the subscription is identified by that position. -/
def BroadcastBus.subscribe (b : BroadcastBus) : Nat :=
  b.log.length

/-- Modelled from the spec: the messages a subscription created at
position `pos` can ever observe — exactly those published after it
began (§5: "a session only observes Broadcast Bus messages published
after its own subscription began"). -/
def BroadcastBus.observableFrom (b : BroadcastBus) (pos : Nat) : List String :=
  b.log.drop pos

end Prattle

namespace Prattle

theorem dropPre_eq (p s : List Char) :
    dropPre p s = if p.isPrefixOf s then some (s.drop p.length) else none := by
  induction p generalizing s with
  | nil => simp [dropPre, List.isPrefixOf]
  | cons a ps ih =>
    cases s with
    | nil => simp [dropPre, List.isPrefixOf]
    | cons b ss =>
      by_cases h : a = b
      · simp [dropPre, List.isPrefixOf, h, ih]
      · simp [dropPre, List.isPrefixOf, h]

/-- C6: `Command::parse` is a total pure function agreeing with the §4.1
reference mapping on every input string: after trimming, empty → Empty,
exactly `/quit`, `/help`, `/who` → the respective commands, a
`/action ` head → Action of the remaining text with internal whitespace
preserved, and everything else — near-miss slash strings included —
→ Msg of the trimmed text, never an error. -/
theorem parse_eq_specCommandMapping (input : String) :
    Command.parse input = specCommandMapping input := by
  unfold Command.parse specCommandMapping
  simp only [dropPre_eq]
  by_cases h : ("/action ".data).isPrefixOf (rustTrim input).data <;>
    simp [h, show ("/action ".data).length = 8 from rfl]

theorem getLast?_cons_of_getLast? {α : Type} (a x : α) (l : List α)
    (h : l.getLast? = some x) : (a :: l).getLast? = some x := by
  cases l with
  | nil => simp at h
  | cons b bs => rw [List.getLast?_cons_cons]; exact h

/-- The fueled drain loop satisfies the source loop's recurrence at
every reachable poll index: poll, then timeout check, then sleep and
re-poll. -/
theorem drainFrom_unfold (popZero : Nat → Bool) (k : Nat) (hk : k ≤ 50) :
    drainFrom popZero k =
      if popZero k then (false, k)
      else if GLOBAL_SHUTDOWN_TIMEOUT_MS ≤ POLL_INTERVAL_MS * k then (true, k)
      else drainFrom popZero (k + 1) := by
  have h51 : GLOBAL_SHUTDOWN_TIMEOUT_MS / POLL_INTERVAL_MS + 1 - k
      = (GLOBAL_SHUTDOWN_TIMEOUT_MS / POLL_INTERVAL_MS + 1 - (k + 1)) + 1 := by
    simp only [GLOBAL_SHUTDOWN_TIMEOUT_MS, POLL_INTERVAL_MS]
    omega
  unfold drainFrom
  rw [h51]
  rfl

/-- The drain loop exits normally at the first poll where the
population is zero, provided that happens before the timeout. -/
theorem drainFrom_exits_at_first (popZero : Nat → Bool) (j : Nat)
    (hj : j ≤ 50) (hpop : popZero j = true) :
    ∀ k, k ≤ j → (∀ i, k ≤ i → i < j → popZero i = false) →
      drainFrom popZero k = (false, j) := by
  have main : ∀ d k, j - k = d → k ≤ j →
      (∀ i, k ≤ i → i < j → popZero i = false) →
      drainFrom popZero k = (false, j) := by
    intro d
    induction d with
    | zero =>
      intro k hd hkj _
      have hkj' : k = j := by omega
      subst hkj'
      rw [drainFrom_unfold popZero k (by omega)]
      simp [hpop]
    | succ d ih =>
      intro k hd hkj hmin
      have hklt : k < j := by omega
      have hpk : popZero k = false := hmin k le_rfl hklt
      have hto : ¬ (GLOBAL_SHUTDOWN_TIMEOUT_MS ≤ POLL_INTERVAL_MS * k) := by
        simp only [GLOBAL_SHUTDOWN_TIMEOUT_MS, POLL_INTERVAL_MS]
        omega
      rw [drainFrom_unfold popZero k (by omega)]
      simp only [hpk, Bool.false_eq_true, if_false, if_neg hto]
      exact ih (k + 1) (by omega) (by omega) (fun i h1 h2 => hmin i (by omega) h2)
  exact fun k hk hmin => main (j - k) k rfl hk hmin

/-- If the population never reaches zero within the timeout, the drain
loop breaks at poll 50 (elapsed 5000 ms) with the timeout flag set. -/
theorem drainFrom_timeout (popZero : Nat → Bool)
    (h : ∀ i, i ≤ 50 → popZero i = false) :
    ∀ k, k ≤ 50 → drainFrom popZero k = (true, 50) := by
  have main : ∀ d k, 50 - k = d → k ≤ 50 → drainFrom popZero k = (true, 50) := by
    intro d
    induction d with
    | zero =>
      intro k hd hk
      have hk50 : k = 50 := by omega
      subst hk50
      rw [drainFrom_unfold popZero 50 le_rfl]
      simp [h 50 le_rfl, GLOBAL_SHUTDOWN_TIMEOUT_MS, POLL_INTERVAL_MS]
    | succ d ih =>
      intro k hd hk
      have hto : ¬ (GLOBAL_SHUTDOWN_TIMEOUT_MS ≤ POLL_INTERVAL_MS * k) := by
        simp only [GLOBAL_SHUTDOWN_TIMEOUT_MS, POLL_INTERVAL_MS]
        omega
      rw [drainFrom_unfold popZero k (by omega)]
      simp only [h k (by omega), Bool.false_eq_true, if_false, if_neg hto]
      exact ih (k + 1) (by omega) (by omega)
  exact fun k hk => main (50 - k) k rfl hk

theorem acceptLoop_append_shutdown (pre post : List DispatchEvent) :
    acceptLoop (pre ++ DispatchEvent.shutdownFired :: post)
      = acceptLoop (pre ++ [DispatchEvent.shutdownFired]) := by
  induction pre with
  | nil => rfl
  | cons e rest ih =>
    cases e with
    | conn => simp [acceptLoop, ih]
    | shutdownFired => rfl

theorem acceptLoop_last_broadcast (pre post : List DispatchEvent) :
    (acceptLoop (pre ++ DispatchEvent.shutdownFired :: post)).1.getLast?
      = some DispatchAct.broadcastShutdown := by
  induction pre with
  | nil => rfl
  | cons e rest ih =>
    cases e with
    | conn =>
      simp only [List.cons_append, acceptLoop]
      exact getLast?_cons_of_getLast? _ _ _ ih
    | shutdownFired => rfl

theorem acceptLoop_exits (pre post : List DispatchEvent) :
    (acceptLoop (pre ++ DispatchEvent.shutdownFired :: post)).2 = true := by
  induction pre with
  | nil => rfl
  | cons e rest ih =>
    cases e with
    | conn => simp [acceptLoop, ih]
    | shutdownFired => rfl

/-- C9: the per-client disconnect timeout is the global shutdown
timeout minus one second, 5 s − 1 s = 4 s, hence strictly less than the
5-second global drain timeout. -/
theorem client_timeout_margin :
    CLIENT_DISCONNECT_TIMEOUT_MS = GLOBAL_SHUTDOWN_TIMEOUT_MS - 1000
    ∧ CLIENT_DISCONNECT_TIMEOUT_MS = 4000
    ∧ GLOBAL_SHUTDOWN_TIMEOUT_MS = 5000
    ∧ CLIENT_DISCONNECT_TIMEOUT_MS < GLOBAL_SHUTDOWN_TIMEOUT_MS := by
  refine ⟨rfl, by decide, by decide, by decide⟩

/-- C2: a subscription observes exactly the messages published after it
began — a subscriber sees neither the pre-subscription history (hence no
chat history and no announcements predating its own join) nor, in
particular, a message published before it subscribed. -/
theorem subscriber_sees_only_later_publishes (pre post : List String)
    (m : String) (hm : m ∉ post) :
    (BroadcastBus.publishAll ⟨pre⟩ post).observableFrom
        (BroadcastBus.subscribe ⟨pre⟩) = post
    ∧ m ∉ (BroadcastBus.publishAll (BroadcastBus.publish ⟨pre⟩ m) post).observableFrom
        (BroadcastBus.subscribe (BroadcastBus.publish ⟨pre⟩ m)) := by
  constructor
  · simp [BroadcastBus.publishAll, BroadcastBus.subscribe,
      BroadcastBus.observableFrom, List.drop_left]
  · have hd : ((pre ++ [m]) ++ post).drop (pre ++ [m]).length = post :=
      List.drop_left (pre ++ [m]) post
    simp only [BroadcastBus.publishAll, BroadcastBus.publish,
      BroadcastBus.subscribe, BroadcastBus.observableFrom]
    rw [hd]
    exact hm

theorem subscriber_sees_only_later_publishes_witness :
    ("history" ∉ (["join"] : List String))
    ∧ ((BroadcastBus.publishAll ⟨["history"]⟩ ["join"]).observableFrom
          (BroadcastBus.subscribe ⟨["history"]⟩) = ["join"]
      ∧ "history" ∉ (BroadcastBus.publishAll
            (BroadcastBus.publish ⟨["history"]⟩ "history") ["join"]).observableFrom
          (BroadcastBus.subscribe (BroadcastBus.publish ⟨["history"]⟩ "history"))) :=
  ⟨by decide, subscriber_sees_only_later_publishes ["history"] ["join"] "history" (by decide)⟩

/-- C5: after the shutdown trigger the accept loop performs no further
accepts (its actions do not depend on events after the trigger), its
last action is broadcasting the shutdown signal, and it exits; the
drain then polls the "directory empty and zero active sessions"
condition every 100 ms, returns at the first poll where it holds, and
on a full timeout (5000 ms = poll 50) breaks with the timeout flag —
`run` returning `Ok` in every case, timeout included. -/
theorem dispatcher_shutdown_drain (receivers : Nat)
    (pre post : List DispatchEvent) (popZero pz2 : Nat → Bool) (k : Nat)
    (hr : receivers ≠ 0) (hmin : ∀ i, i < k → popZero i = false)
    (hpop : popZero k = true) (hk : k ≤ 50)
    (hz : ∀ i, i ≤ 50 → pz2 i = false) :
    acceptLoop (pre ++ DispatchEvent.shutdownFired :: post)
        = acceptLoop (pre ++ [DispatchEvent.shutdownFired])
    ∧ (acceptLoop (pre ++ DispatchEvent.shutdownFired :: post)).1.getLast?
        = some DispatchAct.broadcastShutdown
    ∧ (acceptLoop (pre ++ DispatchEvent.shutdownFired :: post)).2 = true
    ∧ afterShutdown receivers popZero = (some (false, k), Except.ok ())
    ∧ afterShutdown receivers pz2 = (some (true, 50), Except.ok ())
    ∧ afterShutdown 0 popZero = (none, Except.ok ())
    ∧ GLOBAL_SHUTDOWN_TIMEOUT_MS = 5000 ∧ POLL_INTERVAL_MS = 100 := by
  refine ⟨acceptLoop_append_shutdown pre post, acceptLoop_last_broadcast pre post,
    acceptLoop_exits pre post, ?_, ?_, rfl, rfl, rfl⟩
  · simp only [afterShutdown, if_neg hr]
    rw [drainFrom_exits_at_first popZero k hk hpop 0 (Nat.zero_le k)
      (fun i _ h2 => hmin i h2)]
  · simp only [afterShutdown, if_neg hr]
    rw [drainFrom_timeout pz2 hz 0 (by omega)]

theorem dispatcher_shutdown_drain_witness :
    ((1 : Nat) ≠ 0
      ∧ (∀ i, i < 2 → (fun n => decide (n = 2)) i = false)
      ∧ (fun n => decide (n = 2)) 2 = true ∧ (2 : Nat) ≤ 50
      ∧ (∀ i, i ≤ 50 → (fun _ => false : Nat → Bool) i = false))
    ∧ (acceptLoop ([DispatchEvent.conn] ++ DispatchEvent.shutdownFired
          :: [DispatchEvent.conn, DispatchEvent.conn])
        = acceptLoop ([DispatchEvent.conn] ++ [DispatchEvent.shutdownFired])
      ∧ (acceptLoop ([DispatchEvent.conn] ++ DispatchEvent.shutdownFired
          :: [DispatchEvent.conn, DispatchEvent.conn])).1.getLast?
        = some DispatchAct.broadcastShutdown
      ∧ (acceptLoop ([DispatchEvent.conn] ++ DispatchEvent.shutdownFired
          :: [DispatchEvent.conn, DispatchEvent.conn])).2 = true
      ∧ afterShutdown 1 (fun n => decide (n = 2)) = (some (false, 2), Except.ok ())
      ∧ afterShutdown 1 (fun _ => false) = (some (true, 50), Except.ok ())
      ∧ afterShutdown 0 (fun n => decide (n = 2)) = (none, Except.ok ())
      ∧ GLOBAL_SHUTDOWN_TIMEOUT_MS = 5000 ∧ POLL_INTERVAL_MS = 100) :=
  ⟨⟨by decide, by decide, by decide, by decide, by decide⟩,
    dispatcher_shutdown_drain 1 [DispatchEvent.conn]
      [DispatchEvent.conn, DispatchEvent.conn] (fun n => decide (n = 2))
      (fun _ => false) 2 (by decide) (by decide) (by decide) (by decide) (by decide)⟩

/-- C1: registration is an atomic test-and-set on the directory: it
succeeds exactly when the name is absent (adding exactly that name), a
failed attempt leaves the directory unchanged, a second attempt at a
name just registered must fail (so of two sessions racing for one name
at most one wins), and in the negotiation loop a taken name elicits the
"Username taken\n" error line followed by a retry. -/
theorem username_registration_atomic (users : List String) (n l : String)
    (rest : List NegEvent) (h1 : rustTrim l ≠ "") (h2 : rustTrim l ∈ users) :
    ((tryRegister users n).1 = true ↔ n ∉ users)
    ∧ ((tryRegister users n).1 = true → (tryRegister users n).2 = n :: users)
    ∧ ((tryRegister users n).1 = false → (tryRegister users n).2 = users)
    ∧ ((tryRegister users n).1 = true
        → (tryRegister (tryRegister users n).2 n).1 = false)
    ∧ negotiate users (NegEvent.inputLine l :: rest)
        = ((negotiate users rest).1, (negotiate users rest).2.1,
            "Choose a username: " :: "Username taken\n"
              :: (negotiate users rest).2.2) := by
  refine ⟨?_, ?_, ?_, ?_, ?_⟩
  · by_cases hmem : n ∈ users <;> simp [tryRegister, hmem]
  · by_cases hmem : n ∈ users <;> simp [tryRegister, hmem]
  · by_cases hmem : n ∈ users <;> simp [tryRegister, hmem]
  · by_cases hmem : n ∈ users <;> simp [tryRegister, hmem]
  · simp [negotiate, tryRegister, h1, h2]

theorem username_registration_atomic_witness :
    (rustTrim " a " ≠ "" ∧ rustTrim " a " ∈ (["a"] : List String))
    ∧ (((tryRegister ["a"] "b").1 = true ↔ "b" ∉ (["a"] : List String))
      ∧ ((tryRegister ["a"] "b").1 = true → (tryRegister ["a"] "b").2 = ["b", "a"])
      ∧ ((tryRegister ["a"] "b").1 = false → (tryRegister ["a"] "b").2 = ["a"])
      ∧ ((tryRegister ["a"] "b").1 = true
          → (tryRegister (tryRegister ["a"] "b").2 "b").1 = false)
      ∧ negotiate ["a"] (NegEvent.inputLine " a " :: [])
          = ((negotiate ["a"] []).1, (negotiate ["a"] []).2.1,
              "Choose a username: " :: "Username taken\n"
                :: (negotiate ["a"] []).2.2)) :=
  ⟨⟨by decide, by decide⟩,
    username_registration_atomic ["a"] "b" " a " [] (by decide) (by decide)⟩

/-- C8: a negotiation line whose whitespace-trim is empty — "", " ",
"   ", a tab, and the full-width ideographic space all trim to empty —
elicits "Username cannot be empty\n", leaves the directory untouched
and re-prompts, and a subsequent non-empty untaken name registers. -/
theorem negotiation_empty_rejection (users : List String) (l l2 : String)
    (rest : List NegEvent) (h : rustTrim l = "") (h2 : rustTrim l2 ≠ "")
    (h3 : rustTrim l2 ∉ users) :
    (rustTrim "" = "" ∧ rustTrim " " = "" ∧ rustTrim "   " = ""
      ∧ rustTrim "\t" = "" ∧ rustTrim "　" = "")
    ∧ negotiate users (NegEvent.inputLine l :: rest)
        = ((negotiate users rest).1, (negotiate users rest).2.1,
           "Choose a username: " :: "Username cannot be empty\n"
             :: (negotiate users rest).2.2)
    ∧ negotiate users [NegEvent.inputLine l, NegEvent.inputLine l2]
        = (NegOutcome.registered (rustTrim l2), rustTrim l2 :: users,
           ["Choose a username: ", "Username cannot be empty\n",
            "Choose a username: "]) := by
  refine ⟨⟨by decide, by decide, by decide, by decide, by decide⟩, ?_, ?_⟩
  · simp [negotiate, h]
  · simp [negotiate, h, h2, tryRegister, h3]

theorem negotiation_empty_rejection_witness :
    (rustTrim "　" = "" ∧ rustTrim " alice " ≠ ""
      ∧ rustTrim " alice " ∉ (["bob"] : List String))
    ∧ ((rustTrim "" = "" ∧ rustTrim " " = "" ∧ rustTrim "   " = ""
        ∧ rustTrim "\t" = "" ∧ rustTrim "　" = "")
      ∧ negotiate ["bob"] (NegEvent.inputLine "　" :: [])
          = ((negotiate ["bob"] []).1, (negotiate ["bob"] []).2.1,
             "Choose a username: " :: "Username cannot be empty\n"
               :: (negotiate ["bob"] []).2.2)
      ∧ negotiate ["bob"] [NegEvent.inputLine "　", NegEvent.inputLine " alice "]
          = (NegOutcome.registered (rustTrim " alice "), rustTrim " alice " :: ["bob"],
             ["Choose a username: ", "Username cannot be empty\n",
              "Choose a username: "])) :=
  ⟨⟨by decide, by decide, by decide⟩,
    negotiation_empty_rejection ["bob"] "　" " alice " []
      (by decide) (by decide) (by decide)⟩

/-- C7: whenever the negotiation loop ends via the shutdown signal, the
session wrote the shutdown notice with its leading blank line as the
last line, registered nothing (the directory is exactly what it was),
and in particular the logging placeholder `[unknown]` is never in the
directory. -/
theorem shutdown_during_negotiation (users : List String) (evs : List NegEvent)
    (h : (negotiate users evs).1 = NegOutcome.shutdownNotice)
    (hu : UNKNOWN_USERNAME ∉ users) :
    (negotiate users evs).2.1 = users
    ∧ (negotiate users evs).2.2.getLast? = some "\nServer is shutting down\n"
    ∧ UNKNOWN_USERNAME ∉ (negotiate users evs).2.1 := by
  induction evs generalizing users with
  | nil => simp [negotiate] at h
  | cons e rest ih =>
    cases e with
    | shutdown => exact ⟨rfl, rfl, hu⟩
    | inputLine l =>
      by_cases h0 : rustTrim l = ""
      · have h' : (negotiate users rest).1 = NegOutcome.shutdownNotice := by
          simpa [negotiate, h0] using h
        obtain ⟨e1, e2, e3⟩ := ih users h' hu
        have hw : (negotiate users (NegEvent.inputLine l :: rest)).2.2
            = "Choose a username: " :: "Username cannot be empty\n"
              :: (negotiate users rest).2.2 := by
          simp [negotiate, h0]
        refine ⟨by simpa [negotiate, h0] using e1, ?_,
          by simpa [negotiate, h0] using e3⟩
        rw [hw]
        exact getLast?_cons_of_getLast? _ _ _ (getLast?_cons_of_getLast? _ _ _ e2)
      · by_cases hcm : rustTrim l ∈ users
        · have h' : (negotiate users rest).1 = NegOutcome.shutdownNotice := by
            simpa [negotiate, h0, tryRegister, hcm] using h
          obtain ⟨e1, e2, e3⟩ := ih users h' hu
          have hw : (negotiate users (NegEvent.inputLine l :: rest)).2.2
              = "Choose a username: " :: "Username taken\n"
                :: (negotiate users rest).2.2 := by
            simp [negotiate, h0, tryRegister, hcm]
          refine ⟨by simpa [negotiate, h0, tryRegister, hcm] using e1, ?_,
            by simpa [negotiate, h0, tryRegister, hcm] using e3⟩
          rw [hw]
          exact getLast?_cons_of_getLast? _ _ _ (getLast?_cons_of_getLast? _ _ _ e2)
        · simp [negotiate, h0, tryRegister, hcm] at h

theorem shutdown_during_negotiation_witness :
    ((negotiate ["bob"] [NegEvent.inputLine " ", NegEvent.shutdown]).1
        = NegOutcome.shutdownNotice
      ∧ UNKNOWN_USERNAME ∉ (["bob"] : List String))
    ∧ ((negotiate ["bob"] [NegEvent.inputLine " ", NegEvent.shutdown]).2.1 = ["bob"]
      ∧ (negotiate ["bob"] [NegEvent.inputLine " ", NegEvent.shutdown]).2.2.getLast?
          = some "\nServer is shutting down\n"
      ∧ UNKNOWN_USERNAME
          ∉ (negotiate ["bob"] [NegEvent.inputLine " ", NegEvent.shutdown]).2.1) :=
  ⟨⟨by decide, by decide⟩,
    shutdown_during_negotiation ["bob"] [NegEvent.inputLine " ", NegEvent.shutdown]
      (by decide) (by decide)⟩

/-- C10: uniqueness and removal work by exact string equality on the
trimmed name — registration succeeds exactly when the identical string
is absent (so "Alice" and "alice" coexist), and unregistering a name
removes only that exact string. -/
theorem username_exact_match (users : List String) (n m : String) (hm : m ≠ n) :
    ((tryRegister users n).1 = true ↔ n ∉ users)
    ∧ (m ∈ unregister users n ↔ m ∈ users)
    ∧ (tryRegister ["Alice"] "alice").1 = true
    ∧ "Alice" ∈ (tryRegister ["Alice"] "alice").2
    ∧ "alice" ∈ (tryRegister ["Alice"] "alice").2
    ∧ unregister ["Alice", "alice"] "alice" = ["Alice"] := by
  refine ⟨?_, List.mem_erase_of_ne hm, by decide, by decide, by decide, by decide⟩
  by_cases hmem : n ∈ users <;> simp [tryRegister, hmem]

theorem username_exact_match_witness :
    ("Alice" ≠ "alice")
    ∧ (((tryRegister ["Alice", "alice"] "alice").1 = true
          ↔ "alice" ∉ (["Alice", "alice"] : List String))
      ∧ ("Alice" ∈ unregister ["Alice", "alice"] "alice"
          ↔ "Alice" ∈ (["Alice", "alice"] : List String))
      ∧ (tryRegister ["Alice"] "alice").1 = true
      ∧ "Alice" ∈ (tryRegister ["Alice"] "alice").2
      ∧ "alice" ∈ (tryRegister ["Alice"] "alice").2
      ∧ unregister ["Alice", "alice"] "alice" = ["Alice"]) :=
  ⟨by decide, username_exact_match ["Alice", "alice"] "alice" "Alice" (by decide)⟩

/-- C3 counterexample: with zero bus subscribers the chat-Msg publish
fails, `run_command` propagates the failure with `?`, the command loop
exits with that error (no later event is processed), and a
zero-subscriber join publish likewise makes the session return the
error — the session terminates with a session error instead of
treating the publish failure as a no-op. -/
theorem publish_failure_crashes_session :
    (run_command "alice" ["alice"] 0 (Command.Msg "hi")).2.2
        = Except.error SessionErr.sendErr
    ∧ (commandLoop "alice" ["alice"] 0
        [ActiveEvent.sockLine "hi", ActiveEvent.sockLine "/who"]).1
        = some (Except.error SessionErr.sendErr)
    ∧ (clientRun "alice" ["alice"] true 0 1 []).1
        = some (Except.error SessionErr.sendErr) :=
  ⟨by decide, by decide, by decide⟩

/-- C3 amended: only the departure publish is best-effort (its failure
never changes the session result); join, Msg and Action publish
failures propagate as session errors, but cannot occur while the
subscriber count is nonzero — which always holds for a live session,
since it retains its own bus subscription. -/
theorem publish_error_handling_amended (username : String) (users : List String)
    (subs subsExit : Nat) (events : List ActiveEvent)
    (res : Except SessionErr Unit) (m a : String)
    (hs : subs ≠ 0)
    (hexit : (commandLoop username users subs events).1 = some res) :
    (run_command username users subs (Command.Msg m)).2.2 = Except.ok ()
    ∧ (run_command username users subs (Command.Action a)).2.2 = Except.ok ()
    ∧ (clientRun username users true subs 0 events).1 = some res
    ∧ (clientRun username users true subs subsExit events).1 = some res := by
  refine ⟨by simp [run_command, hs], by simp [run_command, hs], ?_, ?_⟩
  · simp [clientRun, hs, hexit]
  · simp [clientRun, hs, hexit]

theorem publish_error_handling_amended_witness :
    ((1 : Nat) ≠ 0
      ∧ (commandLoop "alice" ["alice"] 1 [ActiveEvent.sockEof]).1
          = some (Except.ok ()))
    ∧ ((run_command "alice" ["alice"] 1 (Command.Msg "hi")).2.2 = Except.ok ()
      ∧ (run_command "alice" ["alice"] 1 (Command.Action "waves")).2.2 = Except.ok ()
      ∧ (clientRun "alice" ["alice"] true 1 0 [ActiveEvent.sockEof]).1
          = some (Except.ok ())
      ∧ (clientRun "alice" ["alice"] true 1 0 [ActiveEvent.sockEof]).1
          = some (Except.ok ())) :=
  ⟨⟨by decide, by decide⟩,
    publish_error_handling_amended "alice" ["alice"] 1 0 [ActiveEvent.sockEof]
      (Except.ok ()) "hi" "waves" (by decide) (by decide)⟩

/-- C4, failing input for the code bug: a session registered as "alice"
whose welcome-line write fails with a transport error immediately after
registration. `ClientHandler::run` propagates the write error with `?`
(`src/client.rs` lines 126-134) before reaching the `users.remove` at
line 141, so the task returns with "alice" still in the directory and
no departure announcement attempted — the directory retains the name
of a departed session. For contrast, an exit of the command loop
itself (here `/quit` after a successful welcome) does remove the name
and publish the departure announcement. -/
theorem welcome_write_failure_retains_username :
    (clientRun "alice" ["alice", "bob"] false 1 1 []).1
        = some (Except.error SessionErr.ioErr)
    ∧ "alice" ∈ (clientRun "alice" ["alice", "bob"] false 1 1 []).2.1
    ∧ (clientRun "alice" ["alice", "bob"] false 1 1 []).2.2.2 = []
    ∧ "alice" ∉ (clientRun "alice" ["alice", "bob"] true 1 1
        [ActiveEvent.sockLine "/quit"]).2.1
    ∧ ("* " ++ "alice" ++ " left the server\n")
        ∈ (clientRun "alice" ["alice", "bob"] true 1 1
            [ActiveEvent.sockLine "/quit"]).2.2.2 :=
  ⟨by decide, by decide, by decide, by decide, by decide⟩

end Prattle
